import Mathlib

/-!
Verification of the poll state machine and due-date notification scheduler
of the ultimate-poll-bot repository.

Source files embedded:
  * `pollbot/models/poll.py` — the `Poll` model with `should_show_result`,
    `set_due_date` and `clone`;
  * `pollbot/telegram/callback_handler/management.py` — the lifecycle
    handlers `close_poll`, `reopen_poll`, `reset_poll`.

Timestamps (`datetime`) are modelled as `Int` seconds; `timedelta(days=7)`,
`timedelta(days=1)` and `timedelta(hours=6)` become the constants 604800,
86400 and 21600.  Nullable columns become `Option`; owned collections
(options, votes, references, notifications) become lists carried on the
aggregate.  Handlers that only answer a callback query and mutate the poll
are modelled as pure functions from the poll (and `now`, which the source
reads via `datetime.now()`) to the new poll, together with the answer
string sent to the callback query.
-/

namespace Pollbot

/-- Modelled from the spec: `PollOption` (the model class lives in
`pollbot/models/poll_option.py`, not present in the sources).  The spec and
the clone code only use its name/date value: `PollOption(poll, option.name)`
creates an option under `poll` carrying the given name; new options start
with zero votes, and votes are owned by the poll aggregate. -/
structure PollOption where
  name : String
  deriving Repr, DecidableEq

/-- A vote record owned by a poll (`Vote` model; only its identity matters
to the embedded operations, which delete votes wholesale). -/
structure Vote where
  user_id : Int
  option_name : String
  deriving Repr, DecidableEq

/-- An external message reference owned by a poll (`Reference` model;
opaque to the embedded operations). -/
structure Reference where
  ref_id : Int
  deriving Repr, DecidableEq

/-- A notification record owned by a poll (`Notification` model; opaque to
the embedded operations). -/
structure Notification where
  notif_id : Int
  deriving Repr, DecidableEq

/-- The `Poll` model of `pollbot/models/poll.py`: configuration columns,
lifecycle flags, chat-state scratch columns, the owning user and the owned
collections. -/
structure Poll where
  name : Option String
  description : Option String
  locale : String
  poll_type : String
  anonymous : Bool
  number_of_votes : Option Int
  allow_new_options : Bool
  option_sorting : String
  user_sorting : String
  results_visible : Bool
  show_percentage : Bool
  european_date_format : Bool
  created : Bool
  closed : Bool
  due_date : Option Int
  next_notification : Option Int
  expected_input : Option String
  in_settings : Bool
  user_id : Int
  options : List PollOption
  votes : List Vote
  references : List Reference
  notifications : List Notification
  deriving Repr, DecidableEq

/-- `Poll.__init__(user)` together with the column defaults of the model:
the constructor sets the poll type, anonymity, result visibility and the
two sorting modes; the remaining columns take their declared defaults
(`locale='english'`, `allow_new_options=False`, `show_percentage=True`,
`european_date_format=False`, `created=False`, `closed=False`,
`in_settings=False`, nullable columns `None`, owned collections empty). -/
def Poll.init (uid : Int) : Poll :=
  { name := none
    description := none
    locale := "english"
    poll_type := "single_vote"
    anonymous := false
    number_of_votes := none
    allow_new_options := false
    option_sorting := "option_chrono"
    user_sorting := "user_chrono"
    results_visible := true
    show_percentage := true
    european_date_format := false
    created := false
    closed := false
    due_date := none
    next_notification := none
    expected_input := none
    in_settings := false
    user_id := uid
    options := []
    votes := []
    references := []
    notifications := [] }

/-- `timedelta(days=7)` in seconds. -/
def sevenDays : Int := 604800

/-- `timedelta(days=1)` in seconds. -/
def oneDay : Int := 86400

/-- `timedelta(hours=6)` in seconds. -/
def sixHours : Int := 21600

/-- The body of `Poll.set_due_date`, as a pure function of the due date and
the current time (`datetime.now()`):

```python
if now < self.due_date - timedelta(days=7):
    self.next_notification = self.due_date - timedelta(days=7)
elif now < self.due_date - timedelta(days=1):
    self.next_notification = self.due_date - timedelta(days=1)
elif now < self.due_date - timedelta(hours=6):
    self.next_notification = self.due_date - timedelta(hours=6)
else:
    self.next_notification = self.due_date
```
-/
def computeNextNotification (due_date now : Int) : Int :=
  if now < due_date - sevenDays then due_date - sevenDays
  else if now < due_date - oneDay then due_date - oneDay
  else if now < due_date - sixHours then due_date - sixHours
  else due_date

/-- `Poll.set_due_date(date)`: assigns the due date and the next
notification computed from it and `datetime.now()` (passed explicitly as
`now`). -/
def Poll.set_due_date (p : Poll) (date now : Int) : Poll :=
  { p with due_date := some date
           next_notification := some (computeNextNotification date now) }

/-- `Poll.should_show_result`: `return self.results_visible or self.closed`. -/
def Poll.should_show_result (p : Poll) : Bool :=
  p.results_visible || p.closed

/-- `Poll.clone(session)`: constructs a fresh poll for the same user with
`created = True`, copies the ten configuration columns listed in the
source, and creates one new option per source option (in order) carrying
the source option's name.  Votes, references, notifications, the due-date
state and the chat-state columns are not copied. -/
def Poll.clone (p : Poll) : Poll :=
  { Poll.init p.user_id with
      created := true
      name := p.name
      description := p.description
      poll_type := p.poll_type
      anonymous := p.anonymous
      number_of_votes := p.number_of_votes
      allow_new_options := p.allow_new_options
      option_sorting := p.option_sorting
      user_sorting := p.user_sorting
      results_visible := p.results_visible
      show_percentage := p.show_percentage
      options := p.options.map (fun o => { name := o.name }) }

/-- Result of a callback handler: the poll after the handler ran, plus the
i18n key answered to the callback query (if any). -/
structure HandlerResult where
  poll : Poll
  answer : Option String
  deriving Repr, DecidableEq

/-- `close_poll`: sets `poll.closed = True` and answers `callback.closed`. -/
def close_poll (p : Poll) : HandlerResult :=
  { poll := { p with closed := true }, answer := some "callback.closed" }

/-- `reopen_poll`: if the poll's results are not visible, answers
`callback.cannot_reopen` and returns without touching the poll; otherwise
sets `closed = False` and, when the due date is set and
`due_date <= datetime.now()`, clears both `due_date` and
`next_notification`. -/
def reopen_poll (now : Int) (p : Poll) : HandlerResult :=
  if !p.results_visible then
    { poll := p, answer := some "callback.cannot_reopen" }
  else
    let p := { p with closed := false }
    let p :=
      match p.due_date with
      | some d =>
          if d ≤ now then
            { p with due_date := none, next_notification := none }
          else p
      | none => p
    { poll := p, answer := none }

/-- `reset_poll`: deletes every vote owned by the poll and answers
`callback.votes_removed`. -/
def reset_poll (p : Poll) : HandlerResult :=
  { poll := { p with votes := [] }, answer := some "callback.votes_removed" }

/-- The data-model invariant of §3: `next_notification`, when non-null,
is ≤ `due_date` (in particular `due_date` is also non-null then). -/
def Poll.notification_ok (p : Poll) : Bool :=
  match p.next_notification, p.due_date with
  | none, _ => true
  | some _, none => false
  | some n, some d => decide (n ≤ d)

/-- Helper: the computed notification never lies after the due date. -/
theorem computeNextNotification_le (due_date now : Int) :
    computeNextNotification due_date now ≤ due_date := by
  unfold computeNextNotification sevenDays oneDay sixHours
  split_ifs <;> omega

/-- C1: for every due date `D` and current time `N`, the next-notification
computation (the body of `set_due_date`) returns `D - 7d` iff `N < D - 7d`,
else `D - 1d` iff `N < D - 1d`, else `D - 6h` iff `N < D - 6h`, else `D`
itself; hence the result is always one of `{D-7d, D-1d, D-6h, D}`, is
always ≤ `D`, and the four branches are mutually exclusive and exhaustive
over all `N`, including `N` past `D`. -/
theorem set_due_date_body_branches (D N : Int) :
    computeNextNotification D N ≤ D ∧
    (computeNextNotification D N = D - sevenDays ∨
     computeNextNotification D N = D - oneDay ∨
     computeNextNotification D N = D - sixHours ∨
     computeNextNotification D N = D) ∧
    (computeNextNotification D N = D - sevenDays ↔ N < D - sevenDays) ∧
    (computeNextNotification D N = D - oneDay ↔
      (D - sevenDays ≤ N ∧ N < D - oneDay)) ∧
    (computeNextNotification D N = D - sixHours ↔
      (D - oneDay ≤ N ∧ N < D - sixHours)) ∧
    (computeNextNotification D N = D ↔ D - sixHours ≤ N) := by
  unfold computeNextNotification sevenDays oneDay sixHours
  split_ifs <;> refine ⟨by omega, by omega, by omega, by omega, by omega, by omega⟩

/-- C2: on a poll whose results are not visible, `reopen_poll` answers the
`cannot_reopen` signal and leaves the poll entirely unchanged. -/
theorem reopen_poll_results_hidden (now : Int) (p : Poll)
    (h : p.results_visible = false) :
    (reopen_poll now p).answer = some "callback.cannot_reopen" ∧
    (reopen_poll now p).poll = p := by
  unfold reopen_poll
  rw [h]
  exact ⟨rfl, rfl⟩

/-- Concrete closed poll with hidden results, used to witness C2. -/
def hiddenResultsPoll : Poll :=
  { Poll.init 1 with
      closed := true
      results_visible := false
      due_date := some 1000
      next_notification := some 500 }

/-- Witness for C2 at a concrete closed poll with hidden results. -/
theorem reopen_poll_results_hidden_witness :
    hiddenResultsPoll.results_visible = false ∧
    ((reopen_poll 2000 hiddenResultsPoll).answer =
        some "callback.cannot_reopen" ∧
      (reopen_poll 2000 hiddenResultsPoll).poll = hiddenResultsPoll) :=
  ⟨by decide, reopen_poll_results_hidden 2000 hiddenResultsPoll (by decide)⟩

/-- C3: on a poll with visible results, `reopen_poll` sets
`closed = false`; when the due date is set and already in the past it
additionally clears both `due_date` and `next_notification` (and does not
recompute a new notification), while for a future or absent due date it
leaves `due_date` and `next_notification` unchanged. -/
theorem reopen_poll_results_visible (now : Int) (p : Poll)
    (h : p.results_visible = true) :
    (∀ d, p.due_date = some d → d < now →
      ((reopen_poll now p).poll.closed = false ∧
       (reopen_poll now p).poll.due_date = none ∧
       (reopen_poll now p).poll.next_notification = none)) ∧
    (∀ d, p.due_date = some d → now < d →
      ((reopen_poll now p).poll.closed = false ∧
       (reopen_poll now p).poll.due_date = p.due_date ∧
       (reopen_poll now p).poll.next_notification = p.next_notification)) ∧
    (p.due_date = none →
      ((reopen_poll now p).poll.closed = false ∧
       (reopen_poll now p).poll.due_date = none ∧
       (reopen_poll now p).poll.next_notification = p.next_notification)) := by
  refine ⟨?_, ?_, ?_⟩
  · intro d hd hlt
    simp [reopen_poll, h, hd, le_of_lt hlt]
  · intro d hd hgt
    simp [reopen_poll, h, hd, not_le.mpr hgt]
  · intro hd
    simp [reopen_poll, h, hd]

/-- Concrete closed poll with visible results and a past due date, used to
witness C3. -/
def expiredPoll : Poll :=
  { Poll.init 3 with
      closed := true
      due_date := some 1000
      next_notification := some 1000 }

/-- Witness for C3: reopening the expired sample poll at time 2000 clears
its due date and next notification. -/
theorem reopen_poll_results_visible_witness :
    expiredPoll.results_visible = true ∧
    ((reopen_poll 2000 expiredPoll).poll.closed = false ∧
     (reopen_poll 2000 expiredPoll).poll.due_date = none ∧
     (reopen_poll 2000 expiredPoll).poll.next_notification = none) :=
  ⟨by decide,
    (reopen_poll_results_visible 2000 expiredPoll (by decide)).1
      1000 (by decide) (by decide)⟩

/-- C4: a clone has a fresh lifecycle — `created = true`, `closed = false`,
no due date, no next notification, zero votes, zero notifications, and the
source's external references and `expected_input`/`in_settings` scratch
state are not copied. -/
theorem clone_fresh_lifecycle (p : Poll) :
    p.clone.created = true ∧
    p.clone.closed = false ∧
    p.clone.due_date = none ∧
    p.clone.next_notification = none ∧
    p.clone.votes = [] ∧
    p.clone.notifications = [] ∧
    p.clone.references = [] ∧
    p.clone.expected_input = none ∧
    p.clone.in_settings = false :=
  ⟨rfl, rfl, rfl, rfl, rfl, rfl, rfl, rfl, rfl⟩

/-- C5: a clone copies exactly the ten configuration fields listed in the
source (name, description, poll type, anonymity, max votes, allow new
options, option sorting, user sorting, results visible, show percentage)
for the same owning user; `locale` and `european_date_format` are not
copied and keep their defaults; the options are replicated in order with
the same names; and in this value semantics the clone is a pure function
of the source at clone time, so mutating the source afterwards (e.g.
appending an option) only changes later clones, never the one taken. -/
theorem clone_copies_configuration (p : Poll) :
    p.clone.name = p.name ∧
    p.clone.description = p.description ∧
    p.clone.poll_type = p.poll_type ∧
    p.clone.anonymous = p.anonymous ∧
    p.clone.number_of_votes = p.number_of_votes ∧
    p.clone.allow_new_options = p.allow_new_options ∧
    p.clone.option_sorting = p.option_sorting ∧
    p.clone.user_sorting = p.user_sorting ∧
    p.clone.results_visible = p.results_visible ∧
    p.clone.show_percentage = p.show_percentage ∧
    p.clone.user_id = p.user_id ∧
    p.clone.locale = "english" ∧
    p.clone.european_date_format = false ∧
    p.clone.options = p.options.map (fun o => { name := o.name }) ∧
    p.clone.options.length = p.options.length ∧
    p.clone.options.map PollOption.name = p.options.map PollOption.name ∧
    (∀ o : PollOption,
      ({ p with options := p.options ++ [o] } : Poll).clone.options =
        p.clone.options ++ [{ name := o.name }]) := by
  refine ⟨rfl, rfl, rfl, rfl, rfl, rfl, rfl, rfl, rfl, rfl, rfl, rfl, rfl,
    rfl, by simp [Poll.clone], ?_, ?_⟩
  · simp [Poll.clone]
  · intro o
    simp [Poll.clone]

/-- C6: the invariant "`next_notification`, when non-null, is ≤ `due_date`"
is established by `set_due_date` (every branch assigns a value ≤ the due
date), holds on a fresh clone (both fields null), and is preserved by
`close_poll`, `reset_poll` and `reopen_poll` (which either clears both
fields or leaves both unchanged). -/
theorem operations_preserve_notification_ok (p : Poll) (date now : Int) :
    (p.set_due_date date now).notification_ok = true ∧
    p.clone.notification_ok = true ∧
    (p.notification_ok = true → (close_poll p).poll.notification_ok = true) ∧
    (p.notification_ok = true → (reset_poll p).poll.notification_ok = true) ∧
    (p.notification_ok = true →
      (reopen_poll now p).poll.notification_ok = true) := by
  refine ⟨?_, rfl, fun h => h, fun h => h, ?_⟩
  · simp [Poll.set_due_date, Poll.notification_ok,
      computeNextNotification_le date now]
  · intro h
    unfold reopen_poll
    cases hv : p.results_visible
    · simpa using h
    · simp only [Bool.not_true, Bool.false_eq_true, if_false]
      cases hd : p.due_date with
      | none => simpa [Poll.notification_ok, hd] using h
      | some d =>
        by_cases hle : d ≤ now
        · simp [Poll.notification_ok, hd, hle]
        · simpa [Poll.notification_ok, hd, hle] using h

/-- Concrete open poll carrying a valid due date and notification, used to
witness C6. -/
def scheduledPoll : Poll :=
  { Poll.init 4 with
      due_date := some 604800
      next_notification := some 0 }

/-- Witness for C6 at a concrete scheduled poll: the invariant holds after
each operation. -/
theorem operations_preserve_notification_ok_witness :
    (scheduledPoll.set_due_date 604800 700000).notification_ok = true ∧
    scheduledPoll.clone.notification_ok = true ∧
    (close_poll scheduledPoll).poll.notification_ok = true ∧
    (reset_poll scheduledPoll).poll.notification_ok = true ∧
    (reopen_poll 700000 scheduledPoll).poll.notification_ok = true := by
  have h := operations_preserve_notification_ok scheduledPoll 604800 700000
  exact ⟨h.1, h.2.1, h.2.2.1 (by decide), h.2.2.2.1 (by decide),
    h.2.2.2.2 (by decide)⟩

/-- C7: `reset_poll` deletes all votes owned by the poll and changes
nothing else — options, every configuration field, the lifecycle flags and
the remaining collections are exactly as before — and it always succeeds,
answering `callback.votes_removed`. -/
theorem reset_poll_only_clears_votes (p : Poll) :
    (reset_poll p).poll.votes = [] ∧
    (reset_poll p).answer = some "callback.votes_removed" ∧
    (reset_poll p).poll.options = p.options ∧
    (reset_poll p).poll.closed = p.closed ∧
    (reset_poll p).poll.created = p.created ∧
    (reset_poll p).poll.name = p.name ∧
    (reset_poll p).poll.description = p.description ∧
    (reset_poll p).poll.locale = p.locale ∧
    (reset_poll p).poll.poll_type = p.poll_type ∧
    (reset_poll p).poll.anonymous = p.anonymous ∧
    (reset_poll p).poll.number_of_votes = p.number_of_votes ∧
    (reset_poll p).poll.allow_new_options = p.allow_new_options ∧
    (reset_poll p).poll.option_sorting = p.option_sorting ∧
    (reset_poll p).poll.user_sorting = p.user_sorting ∧
    (reset_poll p).poll.results_visible = p.results_visible ∧
    (reset_poll p).poll.show_percentage = p.show_percentage ∧
    (reset_poll p).poll.european_date_format = p.european_date_format ∧
    (reset_poll p).poll.due_date = p.due_date ∧
    (reset_poll p).poll.next_notification = p.next_notification ∧
    (reset_poll p).poll.expected_input = p.expected_input ∧
    (reset_poll p).poll.in_settings = p.in_settings ∧
    (reset_poll p).poll.user_id = p.user_id ∧
    (reset_poll p).poll.references = p.references ∧
    (reset_poll p).poll.notifications = p.notifications :=
  ⟨rfl, rfl, rfl, rfl, rfl, rfl, rfl, rfl, rfl, rfl, rfl, rfl, rfl, rfl,
    rfl, rfl, rfl, rfl, rfl, rfl, rfl, rfl, rfl, rfl⟩

/-- C8: with the current time held fixed, `set_due_date` is idempotent —
calling it twice with the same date yields the same `due_date`, the same
`next_notification`, and in fact the same poll as calling it once. -/
theorem set_due_date_idempotent (p : Poll) (date now : Int) :
    ((p.set_due_date date now).set_due_date date now).due_date =
      (p.set_due_date date now).due_date ∧
    ((p.set_due_date date now).set_due_date date now).next_notification =
      (p.set_due_date date now).next_notification ∧
    (p.set_due_date date now).set_due_date date now =
      p.set_due_date date now :=
  ⟨rfl, rfl, rfl⟩

/-- C9: `close_poll` sets `closed = true`, changes no other field, and is
idempotent — applying it twice equals applying it once, and on an
already-closed poll it leaves the poll exactly as it is. -/
theorem close_poll_idempotent (p : Poll) :
    (close_poll p).poll.closed = true ∧
    (close_poll (close_poll p).poll).poll = (close_poll p).poll ∧
    (close_poll { p with closed := true }).poll = { p with closed := true } ∧
    (close_poll p).poll.name = p.name ∧
    (close_poll p).poll.description = p.description ∧
    (close_poll p).poll.locale = p.locale ∧
    (close_poll p).poll.poll_type = p.poll_type ∧
    (close_poll p).poll.anonymous = p.anonymous ∧
    (close_poll p).poll.number_of_votes = p.number_of_votes ∧
    (close_poll p).poll.allow_new_options = p.allow_new_options ∧
    (close_poll p).poll.option_sorting = p.option_sorting ∧
    (close_poll p).poll.user_sorting = p.user_sorting ∧
    (close_poll p).poll.results_visible = p.results_visible ∧
    (close_poll p).poll.show_percentage = p.show_percentage ∧
    (close_poll p).poll.european_date_format = p.european_date_format ∧
    (close_poll p).poll.created = p.created ∧
    (close_poll p).poll.due_date = p.due_date ∧
    (close_poll p).poll.next_notification = p.next_notification ∧
    (close_poll p).poll.expected_input = p.expected_input ∧
    (close_poll p).poll.in_settings = p.in_settings ∧
    (close_poll p).poll.user_id = p.user_id ∧
    (close_poll p).poll.options = p.options ∧
    (close_poll p).poll.votes = p.votes ∧
    (close_poll p).poll.references = p.references ∧
    (close_poll p).poll.notifications = p.notifications :=
  ⟨rfl, rfl, rfl, rfl, rfl, rfl, rfl, rfl, rfl, rfl, rfl, rfl, rfl, rfl,
    rfl, rfl, rfl, rfl, rfl, rfl, rfl, rfl, rfl, rfl, rfl⟩

/-- C10: `should_show_result` returns true exactly when `results_visible`
is true or `closed` is true; in particular a closed poll always reports its
results as visible, even when `results_visible = false`. -/
theorem should_show_result_iff (p : Poll) :
    (p.should_show_result = true ↔
      (p.results_visible = true ∨ p.closed = true)) ∧
    ({ p with closed := true } : Poll).should_show_result = true := by
  cases hr : p.results_visible <;> cases hc : p.closed <;>
    simp [Poll.should_show_result, hr, hc]

end Pollbot
